import Mathlib

/-!
Verification of the `handler` function in `src/api/refresh.js` of the
chess-dashboard repository.

The handler is a stateless request-translation function.  We embed it as a
pure Lean function over:
  * the inbound request (only its HTTP method is consulted),
  * the process-wide `GITHUB_TOKEN` environment value (`Option String`;
    `none` models an unset variable, and the JavaScript falsy test `!token`
    also rejects the empty string),
  * the outcome of the single `fetch` call, modelled as either an upstream
    response (status code plus body text) or a thrown transport error
    carrying a message.

The handler returns the response it produces together with the list of
outbound requests it issued, so that side-effect counting claims can be
stated.
-/

namespace ChessDashboard

/-- Inbound HTTP request; the handler only reads its method. -/
structure Request where
  method : String
deriving DecidableEq

/-- The outbound workflow-dispatch request assembled by the handler:
URL, HTTP method, the three request headers, and the serialized JSON body. -/
structure OutboundRequest where
  url : String
  httpMethod : String
  authorization : String
  accept : String
  contentType : String
  body : String
deriving DecidableEq

/-- Outcome of the `await fetch(...)` call: either an upstream response
(whose body text the handler may read via `response.text()`), or a
transport-level exception carrying a message, thrown before any response
is received. -/
inductive FetchOutcome where
  | resp (status : Nat) (text : String)
  | throw (message : String)
deriving DecidableEq

/-- The JSON body of the handler's own response.
`empty` is `res.end()` with no body;
`success msg` is the object with fields success: true and message: msg;
`errorMsg e` is the object with the single field error: e. -/
inductive Body where
  | empty
  | success (message : String)
  | errorMsg (e : String)
deriving DecidableEq

/-- The handler's response: status code, response headers, body. -/
structure Response where
  status : Nat
  headers : List (String × String)
  body : Body
deriving DecidableEq

/-- The three CORS headers set by `res.setHeader` at the top of the handler. -/
def corsHeaders : List (String × String) :=
  [("Access-Control-Allow-Origin", "*"),
   ("Access-Control-Allow-Methods", "POST, OPTIONS"),
   ("Access-Control-Allow-Headers", "Content-Type")]

/-- The hardcoded upstream workflow-dispatch URL. -/
def dispatchUrl : String :=
  "https://api.github.com/repos/mclendaniel/chess-dashboard/actions/workflows/update-dashboard.yml/dispatches"

/-- The outbound request issued by the handler for a given token: the
`fetch` call's URL, method, headers and `JSON.stringify` body. -/
def outboundFor (token : String) : OutboundRequest :=
  { url := dispatchUrl
    httpMethod := "POST"
    authorization := "Bearer " ++ token
    accept := "application/vnd.github.v3+json"
    contentType := "application/json"
    body := "\x7b\"ref\":\"main\"\x7d" }

/-- Shallow embedding of the default export of `src/api/refresh.js`.

`githubToken` is `process.env.GITHUB_TOKEN` (`none` when unset); the guard
mirrors the JavaScript falsy test `if (!token)`, which rejects both an
unset variable and the empty string.  `fetchResult` is the outcome of the
single `fetch` call; the `throw` case corresponds to the `catch (error)`
branch.  The second component of the result is the list of outbound
requests issued (attempted) by this invocation. -/
def handler (req : Request) (githubToken : Option String)
    (fetchResult : FetchOutcome) : Response × List OutboundRequest :=
  if req.method = "OPTIONS" then
    ({ status := 200, headers := corsHeaders, body := .empty }, [])
  else if req.method ≠ "POST" then
    ({ status := 405, headers := corsHeaders, body := .errorMsg "Method not allowed" }, [])
  else
    match githubToken with
    | none =>
      ({ status := 500, headers := corsHeaders,
         body := .errorMsg "GitHub token not configured" }, [])
    | some token =>
      if token = "" then
        ({ status := 500, headers := corsHeaders,
           body := .errorMsg "GitHub token not configured" }, [])
      else
        match fetchResult with
        | .resp s txt =>
          if s = 204 then
            ({ status := 200, headers := corsHeaders,
               body := .success "Dashboard update triggered!" }, [outboundFor token])
          else
            ({ status := s, headers := corsHeaders,
               body := .errorMsg ("GitHub API error: " ++ txt) }, [outboundFor token])
        | .throw m =>
          ({ status := 500, headers := corsHeaders,
             body := .errorMsg m }, [outboundFor token])

/-- On every branch the handler's response carries exactly the CORS headers
set at the top of the function. -/
theorem handler_headers (req : Request) (tok : Option String) (f : FetchOutcome) :
    (handler req tok f).1.headers = corsHeaders := by
  unfold handler
  (repeat' split) <;> rfl

/-- Any single invocation issues at most one outbound request. -/
theorem handler_calls_le_one (req : Request) (tok : Option String) (f : FetchOutcome) :
    (handler req tok f).2.length ≤ 1 := by
  unfold handler
  (repeat' split) <;> simp

/-- A POST invocation with a non-empty token issues exactly the fixed
outbound dispatch request, whatever the fetch outcome. -/
theorem handler_post_calls (t : String) (f : FetchOutcome) (ht : t ≠ "") :
    (handler ⟨"POST"⟩ (some t) f).2 = [outboundFor t] := by
  cases f with
  | resp s txt => by_cases hs : s = 204 <;> simp [handler, ht, hs]
  | throw m => simp [handler, ht]

/-- Claim C1: for a POST request with a configured (non-empty) credential,
when the upstream workflow-dispatch call returns status exactly 204, the
handler responds 200 with the success body saying the dashboard update was
triggered. -/
theorem post_upstream_204_success (t txt : String) (ht : t ≠ "") :
    (handler ⟨"POST"⟩ (some t) (.resp 204 txt)).1 =
      { status := 200, headers := corsHeaders,
        body := .success "Dashboard update triggered!" } := by
  simp [handler, ht]

/-- Witness for C1 at token "tok". -/
theorem post_upstream_204_success_witness :
    (handler ⟨"POST"⟩ (some "tok") (.resp 204 "")).1 =
      { status := 200, headers := corsHeaders,
        body := .success "Dashboard update triggered!" } :=
  post_upstream_204_success "tok" "" (by decide)

/-- Claim C2: for a POST request with a configured credential, when the
upstream responds with status s different from 204 and body text txt, the
handler forwards status s with body error "GitHub API error: " followed by
txt. -/
theorem post_upstream_non204_forwards (t txt : String) (s : Nat)
    (ht : t ≠ "") (hs : s ≠ 204) :
    (handler ⟨"POST"⟩ (some t) (.resp s txt)).1 =
      { status := s, headers := corsHeaders,
        body := .errorMsg ("GitHub API error: " ++ txt) } := by
  simp [handler, ht, hs]

/-- Witness for C2: upstream 422 with text "bad ref" yields 422 and the
wrapped error body. -/
theorem post_upstream_non204_forwards_witness :
    (handler ⟨"POST"⟩ (some "tok") (.resp 422 "bad ref")).1 =
      { status := 422, headers := corsHeaders,
        body := .errorMsg "GitHub API error: bad ref" } := by
  simpa using post_upstream_non204_forwards "tok" "bad ref" 422 (by decide) (by decide)

/-- Claim C3: for a POST request with a configured credential, when the
outbound call throws a transport-level exception with message m, the
handler catches it and responds 500 with body error m; since the embedded
handler is a total function into responses, the fault never propagates. -/
theorem post_transport_failure_500 (t m : String) (ht : t ≠ "") :
    (handler ⟨"POST"⟩ (some t) (.throw m)).1 =
      { status := 500, headers := corsHeaders, body := .errorMsg m } := by
  simp [handler, ht]

/-- Witness for C3 at message "ECONNRESET". -/
theorem post_transport_failure_500_witness :
    (handler ⟨"POST"⟩ (some "tok") (.throw "ECONNRESET")).1 =
      { status := 500, headers := corsHeaders, body := .errorMsg "ECONNRESET" } :=
  post_transport_failure_500 "tok" "ECONNRESET" (by decide)

/-- Claim C4: for a POST request with the credential absent from the
environment, the handler responds 500 with body error "GitHub token not
configured" and issues no outbound call, whatever the fetch oracle would
have returned. -/
theorem post_no_token_500 (f : FetchOutcome) :
    handler ⟨"POST"⟩ none f =
      ({ status := 500, headers := corsHeaders,
         body := .errorMsg "GitHub token not configured" }, []) := by
  rfl

/-- Claim C5: any request whose method is neither OPTIONS nor POST is
rejected with 405 and body error "Method not allowed", with no outbound
call, independent of the credential. -/
theorem non_post_method_405 (req : Request) (tok : Option String) (f : FetchOutcome)
    (h1 : req.method ≠ "OPTIONS") (h2 : req.method ≠ "POST") :
    handler req tok f =
      ({ status := 405, headers := corsHeaders,
         body := .errorMsg "Method not allowed" }, []) := by
  simp [handler, h1, h2]

/-- Witness for C5 at method "GET". -/
theorem non_post_method_405_witness :
    handler ⟨"GET"⟩ (some "tok") (.resp 204 "") =
      ({ status := 405, headers := corsHeaders,
         body := .errorMsg "Method not allowed" }, []) :=
  non_post_method_405 ⟨"GET"⟩ (some "tok") (.resp 204 "") (by decide) (by decide)

/-- Claim C6: an OPTIONS request gets an immediate 200 with empty body and
the CORS headers, regardless of credential configuration, and no outbound
call is issued. -/
theorem options_preflight_200 (tok : Option String) (f : FetchOutcome) :
    handler ⟨"OPTIONS"⟩ tok f =
      ({ status := 200, headers := corsHeaders, body := .empty }, []) := by
  rfl

/-- Claim C7: every response of the handler, on every branch, carries the
three CORS headers allowing any origin, methods POST and OPTIONS, and the
Content-Type header. -/
theorem every_response_has_cors (req : Request) (tok : Option String) (f : FetchOutcome) :
    ("Access-Control-Allow-Origin", "*") ∈ (handler req tok f).1.headers ∧
    ("Access-Control-Allow-Methods", "POST, OPTIONS") ∈ (handler req tok f).1.headers ∧
    ("Access-Control-Allow-Headers", "Content-Type") ∈ (handler req tok f).1.headers := by
  rw [handler_headers]
  refine ⟨?_, ?_, ?_⟩ <;> simp [corsHeaders]

/-- Claim C8: a POST request with non-empty credential t issues exactly one
outbound request, a POST to the fixed workflow-dispatch URL, with bearer
Authorization built from t, the versioned Accept header, and JSON body
with ref "main"; none of it depends on the inbound request or on the fetch
outcome. -/
theorem post_issues_fixed_dispatch (req : Request) (t : String) (f : FetchOutcome)
    (hm : req.method = "POST") (ht : t ≠ "") :
    (handler req (some t) f).2 =
      [{ url := "https://api.github.com/repos/mclendaniel/chess-dashboard/actions/workflows/update-dashboard.yml/dispatches"
         httpMethod := "POST"
         authorization := "Bearer " ++ t
         accept := "application/vnd.github.v3+json"
         contentType := "application/json"
         body := "\x7b\"ref\":\"main\"\x7d" }] := by
  obtain ⟨m⟩ := req
  simp only at hm
  subst hm
  rw [handler_post_calls t f ht]
  rfl

/-- Witness for C8 at token "tok". -/
theorem post_issues_fixed_dispatch_witness :
    (handler ⟨"POST"⟩ (some "tok") (.resp 204 "")).2 =
      [{ url := "https://api.github.com/repos/mclendaniel/chess-dashboard/actions/workflows/update-dashboard.yml/dispatches"
         httpMethod := "POST"
         authorization := "Bearer tok"
         accept := "application/vnd.github.v3+json"
         contentType := "application/json"
         body := "\x7b\"ref\":\"main\"\x7d" }] := by
  simpa using post_issues_fixed_dispatch ⟨"POST"⟩ "tok" (.resp 204 "") rfl (by decide)

/-- Counterexample to C9 as stated: an OPTIONS invocation issues zero
outbound workflow-dispatch calls, not one. -/
theorem options_invocation_issues_no_call :
    ((handler ⟨"OPTIONS"⟩ (some "tok") (.resp 204 "")).2).length ≠ 1 := by
  decide

/-- Claim C9, amended: every invocation issues at most one outbound call
(no retries); a POST invocation with a non-empty credential issues exactly
one; and two sequential such POST invocations issue the dispatch request
twice (no idempotency). -/
theorem at_most_one_call_and_double_dispatch (req : Request) (tok : Option String)
    (f g : FetchOutcome) (t : String) (ht : t ≠ "") :
    (handler req tok f).2.length ≤ 1 ∧
    (handler ⟨"POST"⟩ (some t) f).2 = [outboundFor t] ∧
    (handler ⟨"POST"⟩ (some t) f).2 ++ (handler ⟨"POST"⟩ (some t) g).2
      = [outboundFor t, outboundFor t] := by
  refine ⟨handler_calls_le_one req tok f, handler_post_calls t f ht, ?_⟩
  rw [handler_post_calls t f ht, handler_post_calls t g ht]
  rfl

/-- Witness for the amended C9 at token "tok". -/
theorem at_most_one_call_and_double_dispatch_witness :
    (handler ⟨"POST"⟩ (some "tok") (.resp 204 "")).2.length ≤ 1 ∧
    (handler ⟨"POST"⟩ (some "tok") (.resp 204 "")).2 = [outboundFor "tok"] ∧
    (handler ⟨"POST"⟩ (some "tok") (.resp 204 "")).2
        ++ (handler ⟨"POST"⟩ (some "tok") (.throw "x")).2
      = [outboundFor "tok", outboundFor "tok"] :=
  at_most_one_call_and_double_dispatch ⟨"POST"⟩ (some "tok")
    (.resp 204 "") (.throw "x") "tok" (by decide)

/-- Claim C10: with the credential configured as the empty string, a POST
request is treated as unconfigured: the falsy test rejects it, the handler
responds 500 with body error "GitHub token not configured", and no
outbound call is issued. -/
theorem post_empty_token_500 (f : FetchOutcome) :
    handler ⟨"POST"⟩ (some "") f =
      ({ status := 500, headers := corsHeaders,
         body := .errorMsg "GitHub token not configured" }, []) := by
  rfl

end ChessDashboard
